import Mathlib

/-!
Verification of the statistic-aggregation and rendering logic of the
s-b-e-n-s-o-n profile generator (src/preview.py, src/generate_svg.py).

The Python code is shallowly embedded:
* JSON values produced by json.loads are modelled by the inductive `Json`
  (JSON numbers are modelled as integers: every value the aggregation
  arithmetic touches in the log schema is an integer count; Python bools
  participate in arithmetic as 0/1 and are modelled by `Json.bool`).
* A log line is modelled by its parse result: `none` stands for a line on
  which json.loads raises JSONDecodeError, `some j` for a line parsing to j.
* Python dicts are association lists with distinct keys (json.loads keeps
  one binding per key).
* Python float arithmetic (the cost estimate, f-string one-decimal
  formatting) is modelled by exact rational arithmetic; rounding to one
  decimal place is round-half-to-even on the exact quotient.
* External collaborators (gh transport, cache store) are parameters: the
  cache is `Option` of a well-formed snapshot, the transport result is a
  sum of failure / error-response / parsed data, following the external
  interface description.
-/

/-- A parsed JSON value, the result of Python json.loads. -/
inductive Json where
  | null : Json
  | bool : Bool → Json
  | num : Int → Json
  | str : String → Json
  | arr : List Json → Json
  | obj : List (String × Json) → Json

/-- Python dict lookup d.get(k) on an object association list. -/
def dictLookup (fs : List (String × Json)) (k : String) : Option Json :=
  (fs.find? (fun p => p.1 == k)).map (fun p => p.2)

/-- Python truthiness of a JSON value (if usage: ...). -/
def Json.truthy : Json → Bool
  | .null => false
  | .bool b => b
  | .num n => n != 0
  | .str s => !(s == "")
  | .arr xs => !xs.isEmpty
  | .obj fs => !fs.isEmpty

/-- A JSON value usable on the right of Python integer +=: numbers, and
booleans (which Python treats as 0/1).  Any other value raises TypeError. -/
def asIntValue : Json → Option Int
  | .num n => some n
  | .bool b => some (if b then 1 else 0)
  | _ => none

/-- Does the character list pat occur at the head of s. -/
def hasPrefixL : List Char → List Char → Bool
  | [], _ => true
  | _ :: _, [] => false
  | p :: ps, c :: cs => p == c && hasPrefixL ps cs

/-- Does the character list pat occur anywhere inside s
(Python substring membership, pat in s, for nonempty pat). -/
def containsSubB (pat : List Char) : List Char → Bool
  | [] => pat.isEmpty
  | c :: cs => hasPrefixL pat (c :: cs) || containsSubB pat cs

/-- Running counters of the scan loop in get_claude_stats
(preview.py lines 44-49): token totals and the message count. -/
structure Counters where
  input : Int
  output : Int
  cacheCreation : Int
  cacheRead : Int
  messages : Nat
deriving DecidableEq

/-- Initial counters (preview.py lines 44-49, all zero). -/
def initCounters : Counters := ⟨0, 0, 0, 0, 0⟩

/-- Outcome of running the body of the per-line loop on one line:
either the loop continues with updated counters, or an exception other
than JSONDecodeError escaped (with the updates applied before it was
raised); such an exception is caught by the per-file
except Exception handler (preview.py line 70). -/
inductive StepResult where
  | ok (s : Counters)
  | exn (s : Counters)
deriving DecidableEq

/-- The counters carried by a step result. -/
def StepResult.state : StepResult → Counters
  | .ok s => s
  | .exn s => s

/-- The four += statements of preview.py lines 64-67: usage.get(name, 0)
followed by an integer +=.  A non-numeric field value raises TypeError
after the earlier fields were already added. -/
def addTokens (s : Counters) (ufs : List (String × Json)) : StepResult :=
  match asIntValue ((dictLookup ufs "input_tokens").getD (.num 0)) with
  | none => .exn s
  | some a =>
    let s1 : Counters := { s with input := s.input + a }
    match asIntValue ((dictLookup ufs "output_tokens").getD (.num 0)) with
    | none => .exn s1
    | some b =>
      let s2 : Counters := { s1 with output := s1.output + b }
      match asIntValue ((dictLookup ufs "cache_creation_input_tokens").getD (.num 0)) with
      | none => .exn s2
      | some c =>
        let s3 : Counters := { s2 with cacheCreation := s2.cacheCreation + c }
        match asIntValue ((dictLookup ufs "cache_read_input_tokens").getD (.num 0)) with
        | none => .exn s3
        | some d => .ok { s3 with cacheRead := s3.cacheRead + d }

/-- One iteration of the per-line loop of get_claude_stats
(preview.py lines 56-69):
* a line that fails json.loads is skipped by the inner
  except json.JSONDecodeError handler;
* "message" in data raises TypeError when data is null, a bool or a
  number; for a string it is a substring test and for an array an
  element-equality test, and in either case a successful membership makes
  the subsequent data["message"] subscript raise TypeError;
* for a dict, when data["message"] is itself a dict, usage is
  message.get("usage", {}); a truthy usage first increments
  message_count and then runs the four token additions, which raise
  AttributeError when usage is not a dict. -/
def processLine (s : Counters) (line : Option Json) : StepResult :=
  match line with
  | none => .ok s
  | some .null => .exn s
  | some (.bool _) => .exn s
  | some (.num _) => .exn s
  | some (.str t) =>
      if containsSubB "message".data t.data then .exn s else .ok s
  | some (.arr xs) =>
      if xs.any (fun j => match j with | .str t => t == "message" | _ => false) then
        .exn s
      else .ok s
  | some (.obj fs) =>
      match dictLookup fs "message" with
      | some (.obj mfs) =>
          let usage := (dictLookup mfs "usage").getD (.obj [])
          if usage.truthy then
            let s1 : Counters := { s with messages := s.messages + 1 }
            match usage with
            | .obj ufs => addTokens s1 ufs
            | _ => .exn s1
          else .ok s
      | _ => .ok s

/-- A log file, as the list of parse results of its lines. -/
abbrev JsonlFile := List (Option Json)

/-- The per-file loop of get_claude_stats (preview.py lines 55-71): lines
are processed in order; an escaping exception is caught by the outer
except Exception handler, which abandons the rest of the file but keeps
all updates made so far. -/
def processFile (s : Counters) : JsonlFile → Counters
  | [] => s
  | l :: ls =>
      match processLine s l with
      | .ok s1 => processFile s1 ls
      | .exn s1 => s1

/-- The whole directory scan of get_claude_stats (preview.py lines 51-71),
over the discovered .jsonl files in rglob order. -/
def scanFiles (files : List JsonlFile) : Counters :=
  files.foldl processFile initCounters

/-- The record returned by get_claude_stats (preview.py lines 94-103). -/
structure ClaudeStats where
  input_tokens : Int
  output_tokens : Int
  cache_creation : Int
  cache_read : Int
  total_tokens : Int
  sessions : Nat
  messages : Nat
  cost_estimate : ℚ
deriving DecidableEq

/-- The cost estimate of preview.py lines 89-92:
(input + cache_creation) * 10 / 1_000_000 + output * 30 / 1_000_000
+ cache_read * 1 / 1_000_000, in exact rational arithmetic. -/
def claudeCost (i o cc cr : Int) : ℚ :=
  ((i : ℚ) + (cc : ℚ)) * 10 / 1000000 + (o : ℚ) * 30 / 1000000 + (cr : ℚ) * 1 / 1000000

/-- The dict literal returned at preview.py lines 94-103. -/
def mkClaudeRecord (c : Counters) (sessions : Nat) : ClaudeStats :=
  { input_tokens := c.input
    output_tokens := c.output
    cache_creation := c.cacheCreation
    cache_read := c.cacheRead
    total_tokens := c.input + c.output + c.cacheCreation + c.cacheRead
    sessions := sessions
    messages := c.messages
    cost_estimate := claudeCost c.input c.output c.cacheCreation c.cacheRead }

/-- The freshly computed local usage record: the result of
get_claude_stats when at least one file was discovered (no cache path). -/
def claudeFresh (files : List JsonlFile) : ClaudeStats :=
  mkClaudeRecord (scanFiles files) files.length

/-- get_claude_stats (preview.py lines 41-103) with the cache collaborator
as a parameter: when the scan discovered no file (session_count == 0) and
a cached snapshot with a claude entry is readable, that snapshot is
returned verbatim; otherwise the record is computed from the counters. -/
def get_claude_stats (files : List JsonlFile) (cache : Option ClaudeStats) : ClaudeStats :=
  let c := scanFiles files
  if files.length = 0 then
    match cache with
    | some cached => cached
    | none => mkClaudeRecord c 0
  else
    mkClaudeRecord c files.length

/-- C3: for every freshly computed local usage record, totalTokens equals
inputTokens + outputTokens + cacheCreationTokens + cacheReadTokens exactly. -/
theorem claude_total_tokens_is_sum (files : List JsonlFile) :
    (claudeFresh files).total_tokens =
      (claudeFresh files).input_tokens + (claudeFresh files).output_tokens +
        (claudeFresh files).cache_creation + (claudeFresh files).cache_read := by
  simp [claudeFresh, mkClaudeRecord]

/-- C2: for every freshly computed local usage record, costEstimate equals
(inputTokens + cacheCreationTokens) * 10e-6 + outputTokens * 30e-6 +
cacheReadTokens * 1e-6, exactly (in the exact rational model of the
Python float arithmetic); this holds for all token counters, in
particular the non-negative ones. -/
theorem claude_cost_formula (files : List JsonlFile) :
    (claudeFresh files).cost_estimate =
      ((((claudeFresh files).input_tokens + (claudeFresh files).cache_creation : Int) : ℚ))
          * (10 / 1000000)
        + (((claudeFresh files).output_tokens : Int) : ℚ) * (30 / 1000000)
        + (((claudeFresh files).cache_read : Int) : ℚ) * (1 / 1000000) := by
  simp only [claudeFresh, mkClaudeRecord, claudeCost]
  push_cast
  ring

/-- C9: the cost estimate of preview.py lines 89-92 is monotonically
non-decreasing in each of the four token counters independently,
holding the other three fixed. -/
theorem claude_cost_monotone :
    (∀ i i' o cc cr : Int, i ≤ i' → claudeCost i o cc cr ≤ claudeCost i' o cc cr) ∧
    (∀ i o o' cc cr : Int, o ≤ o' → claudeCost i o cc cr ≤ claudeCost i o' cc cr) ∧
    (∀ i o cc cc' cr : Int, cc ≤ cc' → claudeCost i o cc cr ≤ claudeCost i o cc' cr) ∧
    (∀ i o cc cr cr' : Int, cr ≤ cr' → claudeCost i o cc cr ≤ claudeCost i o cc cr') := by
  refine ⟨?_, ?_, ?_, ?_⟩ <;> intro a b c d e h <;> unfold claudeCost
  · have hc : (a : ℚ) ≤ (b : ℚ) := by exact_mod_cast h
    linarith
  · have hc : (b : ℚ) ≤ (c : ℚ) := by exact_mod_cast h
    linarith
  · have hc : (c : ℚ) ≤ (d : ℚ) := by exact_mod_cast h
    linarith
  · have hc : (d : ℚ) ≤ (e : ℚ) := by exact_mod_cast h
    linarith

/-- Witness for the monotonicity theorem at concrete counters. -/
theorem claude_cost_monotone_witness :
    claudeCost 3 5 6 7 ≤ claudeCost 4 5 6 7 ∧
    claudeCost 3 5 6 7 ≤ claudeCost 3 9 6 7 ∧
    claudeCost 3 5 6 7 ≤ claudeCost 3 5 8 7 ∧
    claudeCost 3 5 6 7 ≤ claudeCost 3 5 6 11 :=
  ⟨claude_cost_monotone.1 3 4 5 6 7 (by norm_num),
   claude_cost_monotone.2.1 3 5 9 6 7 (by norm_num),
   claude_cost_monotone.2.2.1 3 5 6 8 7 (by norm_num),
   claude_cost_monotone.2.2.2 3 5 6 7 11 (by norm_num)⟩

/-- Does one parsed line increment message_count: the line is a JSON
object whose message field is an object with a truthy usage value
(preview.py lines 60-63).  The truthy value need not itself be an
object. -/
def lineCounts (l : Option Json) : Bool :=
  match l with
  | some (.obj fs) =>
      match dictLookup fs "message" with
      | some (.obj mfs) => ((dictLookup mfs "usage").getD (.obj [])).truthy
      | _ => false
  | _ => false

/-- Reading of the specification: a parsed record containing a populated
(non-empty) nested usage object. -/
def isUsageObjectRecord (l : Option Json) : Bool :=
  match l with
  | some (.obj fs) =>
      match dictLookup fs "message" with
      | some (.obj mfs) =>
          match dictLookup mfs "usage" with
          | some (.obj ufs) => !ufs.isEmpty
          | _ => false
      | _ => false
  | _ => false

/-- A record whose usage value is truthy but not an object. -/
def badUsageLine : Json := .obj [("message", .obj [("usage", .bool true)])]

/-- A well-formed usage-bearing record with the given input token count. -/
def goodLine (n : Int) : Json :=
  .obj [("message", .obj [("usage", .obj [("input_tokens", .num n)])])]

/-- The token additions never change the message count. -/
theorem addTokens_messages (s : Counters) (ufs : List (String × Json)) :
    (addTokens s ufs).state.messages = s.messages := by
  simp only [addTokens]
  repeat' split
  all_goals rfl

/-- C1 counterexample: a directory with a single one-line file whose line
parses to an object with a truthy but non-object usage value yields
messageCount = 1 even though the file contains no parsed record with a
populated nested usage object and no unparseable line; so messageCount
does not count only usage-object records. -/
theorem claude_message_count_counterexample :
    (claudeFresh [[some badUsageLine]]).messages = 1 ∧
    (claudeFresh [[some badUsageLine]]).sessions = 1 ∧
    ([some badUsageLine] : JsonlFile).countP (fun l => isUsageObjectRecord l) = 0 ∧
    ([some badUsageLine] : JsonlFile).countP (fun l => l.isNone) = 0 := by
  refine ⟨rfl, rfl, rfl, rfl⟩

/-- C1 (amended): each discovered file counts exactly one session
regardless of content; a line that fails to parse as JSON is skipped and
processing continues; each processed line increments messageCount
exactly when it parses to an object whose message object has a truthy
usage value of any type (not only object-valued usage); a line whose
processing raises any other error ends the processing of that file.  The
directory with one file holding two valid usage-bearing lines and one
malformed line yields sessionCount = 1 and messageCount = 2. -/
theorem claude_counting_amended :
    (∀ files : List JsonlFile, (claudeFresh files).sessions = files.length) ∧
    (∀ (s : Counters) (ls : List (Option Json)),
        processFile s (none :: ls) = processFile s ls) ∧
    (∀ (s : Counters) (l : Option Json),
        (processLine s l).state.messages =
          s.messages + (if lineCounts l then 1 else 0)) ∧
    ((claudeFresh [[some (goodLine 3), some (goodLine 4), none]]).sessions = 1 ∧
      (claudeFresh [[some (goodLine 3), some (goodLine 4), none]]).messages = 2) := by
  refine ⟨?_, ?_, ?_, rfl, rfl⟩
  · intro files
    simp [claudeFresh, mkClaudeRecord]
  · intro s ls
    rfl
  · intro s l
    rcases l with _ | j
    · rfl
    · rcases j with _ | b | n | t | xs | fs
      · rfl
      · rfl
      · rfl
      · simp only [processLine, lineCounts]
        split <;> rfl
      · simp only [processLine, lineCounts]
        split <;> rfl
      · cases h : dictLookup fs "message" with
        | none => simp [processLine, lineCounts, h, StepResult.state]
        | some mv =>
          cases mv with
          | obj mfs =>
            simp only [processLine, lineCounts, h]
            generalize (dictLookup mfs "usage").getD (Json.obj []) = u
            rcases u with _ | b | n | t | xs | ufs
            · simp [Json.truthy, StepResult.state]
            · cases b <;> simp [Json.truthy, StepResult.state]
            · rcases eq_or_ne n 0 with rfl | hn
              · simp [Json.truthy, StepResult.state]
              · simp [Json.truthy, hn, StepResult.state]
            · rcases eq_or_ne t "" with rfl | ht
              · simp [Json.truthy, StepResult.state]
              · simp [Json.truthy, ht, StepResult.state]
            · cases xs <;> simp [Json.truthy, StepResult.state, List.isEmpty]
            · cases ufs with
              | nil => simp [Json.truthy, StepResult.state, List.isEmpty]
              | cons p ps =>
                  simpa [Json.truthy, StepResult.state] using
                    addTokens_messages { s with messages := s.messages + 1 } (p :: ps)
          | null => simp [processLine, lineCounts, h, StepResult.state]
          | bool b => simp [processLine, lineCounts, h, StepResult.state]
          | num n => simp [processLine, lineCounts, h, StepResult.state]
          | str t => simp [processLine, lineCounts, h, StepResult.state]
          | arr xs => simp [processLine, lineCounts, h, StepResult.state]

/-- Rounding of a / d to the nearest integer, ties to even, for d > 0.
This models the rounding performed by a Python one-decimal f-string on
the exact quotient. -/
def roundHalfEven (a d : Nat) : Nat :=
  let q := a / d
  let r := a % d
  if 2 * r < d then q
  else if 2 * r > d then q + 1
  else if q % 2 = 0 then q else q + 1

/-- Rendering of n / d with exactly one decimal place, as a Python
f-string with format .1f does (float noise on exact ties abstracted). -/
def fmt1 (n d : Nat) : String :=
  let s := roundHalfEven (10 * n) d
  toString (s / 10) ++ "." ++ toString (s % 10)

/-- format_number of preview.py lines 379-385: one-decimal abbreviation
with suffix M above 1_000_000, with suffix K above 1_000, else the plain
integer string. -/
def format_number (n : Nat) : String :=
  if n ≥ 1000000 then fmt1 n 1000000 ++ "M"
  else if n ≥ 1000 then fmt1 n 1000 ++ "K"
  else toString n

/-- C6: format_number abbreviates with one decimal place and suffix M
from 1_000_000 on, with suffix K from 1_000 on, and returns the plain
integer string below 1_000; in particular 999, 1500 and 2_300_000 render
as 999, 1.5K and 2.3M. -/
theorem format_number_abbreviation :
    (∀ n : Nat, 1000000 ≤ n → format_number n = fmt1 n 1000000 ++ "M") ∧
    (∀ n : Nat, 1000 ≤ n → n < 1000000 → format_number n = fmt1 n 1000 ++ "K") ∧
    (∀ n : Nat, n < 1000 → format_number n = toString n) ∧
    format_number 999 = "999" ∧
    format_number 1500 = "1.5K" ∧
    format_number 2300000 = "2.3M" := by
  refine ⟨?_, ?_, ?_, by decide, by decide, by decide⟩
  · intro n h
    unfold format_number
    rw [if_pos h]
  · intro n h1 h2
    unfold format_number
    rw [if_neg (by omega), if_pos h1]
  · intro n h
    unfold format_number
    rw [if_neg (by omega), if_neg (by omega)]

/-- Witness for the abbreviation theorem at concrete inputs. -/
theorem format_number_abbreviation_witness :
    format_number 2500000 = fmt1 2500000 1000000 ++ "M" ∧
    format_number 1200 = fmt1 1200 1000 ++ "K" ∧
    format_number 7 = toString 7 :=
  ⟨format_number_abbreviation.1 2500000 (by norm_num),
   format_number_abbreviation.2.1 1200 (by norm_num) (by norm_num),
   format_number_abbreviation.2.2.1 7 (by norm_num)⟩

/-- A GitHub stats record: the dicts built by get_github_stats, as an
association list over integer counters, so that a missing key (such as
loc_total in the fallback record) is representable. -/
abbrev GithubRecord := List (String × Int)

/-- Python github.get(key, 0) on a stats record
(used by the renderer, generate_svg.py lines 176-189). -/
def recGet (d : GithubRecord) (k : String) (dflt : Int) : Int :=
  ((d.find? (fun p => p.1 == k)).map (fun p => p.2)).getD dflt

/-- The zero-valued fallback dict of get_github_stats
(preview.py lines 273-284 and, with the same content, lines 322-323).
It carries ten keys and no loc_total key. -/
def githubZeroRecord : GithubRecord :=
  [("repos", 0), ("commits", 0), ("stars", 0), ("followers", 0), ("following", 0),
   ("loc_added", 0), ("loc_deleted", 0), ("contributed_repos", 0), ("prs", 0),
   ("issues", 0)]

/-- The well-shaped payload of the primary aggregate GraphQL query
(preview.py lines 287-313): repository totalCount, the stargazerCount of
each node of the first repository page (a node may be null, modelled by
none and skipped by the if node filter at line 332), follower and
following totals, contributed-repository, pull-request and issue
totals. -/
structure GithubUserData where
  repoTotalCount : Int
  stargazers : List (Option Int)
  followers : Int
  following : Int
  contributedRepos : Int
  prs : Int
  issues : Int

/-- Result of the primary aggregate query: run_gh_graphql returned
nothing usable (transport error, unparseable or falsy response), an
error-shaped response (a dict with an errors key), or parsed data. -/
inductive QueryResult where
  | failed : QueryResult
  | errorKeyed : QueryResult
  | ok : GithubUserData → QueryResult

/-- Client-side star sum of preview.py lines 329-333: stargazerCount
summed over the non-null nodes of the first repository page. -/
def totalStars (nodes : List (Option Int)) : Int :=
  (nodes.filterMap id).sum

/-- The result of get_loc_stats (preview.py lines 177-181): weekly added
and deleted sums, and their signed difference. -/
structure LocStats where
  loc_added : Int
  loc_deleted : Int
  loc_total : Int

/-- get_github_stats (preview.py lines 260-357) over its external
collaborators: `avail` is the gh transport availability/authentication
probe (gh auth status succeeding), `cache` the cached github_stats
snapshot if one is present, `primary` the outcome of the primary
aggregate query, and `commits` / `loc` the results of the commit and
lines-of-code phases (each internally best-effort).  When the transport
is unavailable, or the primary query fails or is error-shaped, the
cached snapshot is returned if present and the zero-valued record
otherwise. -/
def get_github_stats (avail : Bool) (cache : Option GithubRecord)
    (primary : QueryResult) (commits : Int) (loc : LocStats) : GithubRecord :=
  if avail = false then
    match cache with
    | some c => c
    | none => githubZeroRecord
  else
    match primary with
    | .failed => match cache with
      | some c => c
      | none => githubZeroRecord
    | .errorKeyed => match cache with
      | some c => c
      | none => githubZeroRecord
    | .ok u =>
        [("repos", u.repoTotalCount), ("commits", commits),
         ("stars", totalStars u.stargazers), ("followers", u.followers),
         ("following", u.following), ("contributed_repos", u.contributedRepos),
         ("prs", u.prs), ("issues", u.issues), ("loc_added", loc.loc_added),
         ("loc_deleted", loc.loc_deleted), ("loc_total", loc.loc_total)]

/-- C4: the remote aggregator always returns a record non-fatally.  With
the transport unavailable or unauthenticated, or on a hard failure of
the primary aggregate query (transport error or an error-shaped
response), it returns the cached snapshot when present and the
zero-valued record otherwise; with the primary query failed and no
cache, every counter of the returned record is zero. -/
theorem github_stats_fallback :
    (∀ (cache : Option GithubRecord) (p : QueryResult) (c : Int) (l : LocStats),
        get_github_stats false cache p c l = cache.getD githubZeroRecord) ∧
    (∀ (cache : Option GithubRecord) (c : Int) (l : LocStats),
        get_github_stats true cache .failed c l = cache.getD githubZeroRecord) ∧
    (∀ (cache : Option GithubRecord) (c : Int) (l : LocStats),
        get_github_stats true cache .errorKeyed c l = cache.getD githubZeroRecord) ∧
    (∀ (c : Int) (l : LocStats),
        (get_github_stats true none .failed c l).all (fun kv => kv.2 == 0) = true) := by
  refine ⟨?_, ?_, ?_, ?_⟩
  · intro cache p c l
    cases cache <;> cases p <;> rfl
  · intro cache c l
    cases cache <;> rfl
  · intro cache c l
    cases cache <;> rfl
  · intro c l
    rfl

/-- Python string repetition ch * k: negative counts give the empty
string. -/
def pyRepeat (ch : Char) (k : Int) : String :=
  String.mk (List.replicate k.toNat ch)

/-- The fixed content width for stat lines of the SVG target
(generate_svg.py line 55). -/
def content_width : Int := 90

/-- stat_line of generate_svg.py lines 58-62: key, colon, one space, a
dot leader of content_width - len(key_str) - len(val_str) - 2 dots and
one space before the value. -/
def stat_line (key value : String) : String :=
  let key_str := key ++ ":"
  let dots := pyRepeat '.' (content_width - key_str.length - value.length - 2)
  key_str ++ " " ++ dots ++ " " ++ value

/-- The stat row as the specification words it: key + colon + space +
dots + space + value with the dot count floored at zero. -/
def statLineSpec (key value : String) : String :=
  key ++ ":" ++ " " ++
    String.mk (List.replicate
      (max ((90 : Int) - ((key.length : Int) + 1) - (value.length : Int) - 2) 0).toNat '.') ++
    " " ++ value

/-- The dot leader of the Lines of Code row
(generate_svg.py lines 243-245), clamped below at 3 dots. -/
def locDots (locValue : String) : String :=
  pyRepeat '.' (max (content_width - (("Lines of Code:" : String).length : Int)
    - (locValue.length : Int) - 2) 3)

/-- C5: the stat row equals key + colon + space + dots + space + value
with dot count content_width - len(key+colon) - len(value) - 2 floored
at zero, the Sessions/42 row at content width 90 is exactly 90
characters long, and the wide-value Lines of Code row keeps a minimum of
3 dots. -/
theorem stat_line_dot_leader :
    (∀ key value : String, stat_line key value = statLineSpec key value) ∧
    (stat_line "Sessions" "42").length = 90 ∧
    (∀ v : String, 3 ≤ (locDots v).length) := by
  refine ⟨?_, by decide, ?_⟩
  · intro key value
    have hlen : ((key ++ ":").length : Int) = (key.length : Int) + 1 := by
      rw [String.length_append]
      push_cast
      rfl
    have hc : (content_width - ((key ++ ":").length : Int) - (value.length : Int) - 2).toNat
        = (max ((90 : Int) - ((key.length : Int) + 1) - (value.length : Int) - 2) 0).toNat := by
      rw [hlen]
      unfold content_width
      omega
    simp only [stat_line, statLineSpec, pyRepeat, hc]
  · intro v
    have : (locDots v).length
        = (max (content_width - (("Lines of Code:" : String).length : Int)
            - (v.length : Int) - 2) 3).toNat := by
      simp [locDots, pyRepeat, String.length_mk]
    rw [this]
    omega

/-- Python s.replace(c, rep) for a single-character pattern c: every
occurrence of c is replaced by rep, all other characters are kept. -/
def replaceChar (c : Char) (rep : String) (s : String) : String :=
  String.mk (s.data.flatMap (fun a => if a = c then rep.data else [a]))

/-- escape_xml of generate_svg.py lines 17-19: the three replacements in
source order, ampersand first. -/
def escape_xml (s : String) : String :=
  replaceChar '>' "&gt;" (replaceChar '<' "&lt;" (replaceChar '&' "&amp;" s))

/-- Per-character escaping: the net effect of the three sequential
replacements of escape_xml. -/
def escChar (a : Char) : List Char :=
  if a = '&' then "&amp;".data
  else if a = '<' then "&lt;".data
  else if a = '>' then "&gt;".data
  else [a]

/-- The three sequential single-character replacements act as one
per-character substitution. -/
theorem escape_chain (l : List Char) :
    ((l.flatMap (fun a => if a = '&' then "&amp;".data else [a])).flatMap
        (fun a => if a = '<' then "&lt;".data else [a])).flatMap
      (fun a => if a = '>' then "&gt;".data else [a]) = l.flatMap escChar := by
  induction l with
  | nil => rfl
  | cons a as ih =>
      simp only [List.flatMap_cons, List.flatMap_append, ih]
      congr 1
      by_cases h1 : a = '&'
      · subst h1; rfl
      · by_cases h2 : a = '<'
        · subst h2; simp [escChar]
        · by_cases h3 : a = '>'
          · subst h3; simp [escChar]
          · simp [escChar, h1, h2, h3]

/-- An element of a list contributes its image as one contiguous block
of the flat map. -/
theorem flatMap_block {α β : Type} (f : α → List β) {a : α} {l : List α}
    (h : a ∈ l) : ∃ u v : List β, l.flatMap f = u ++ f a ++ v := by
  induction l with
  | nil => cases h
  | cons b bs ih =>
      rcases List.mem_cons.mp h with rfl | h1
      · exact ⟨[], bs.flatMap f, by simp⟩
      · rcases ih h1 with ⟨u, v, huv⟩
        exact ⟨f b ++ u, v, by simp [huv]⟩

/-- C7: escape_xml acts per character, its output contains no raw angle
bracket, a value containing an ampersand, a less-than or a greater-than
sign renders with the corresponding entity as a contiguous block of the
output, and a sample string containing all three renders fully
escaped. -/
theorem escape_xml_escapes :
    (∀ s : String, escape_xml s = String.mk (s.data.flatMap escChar)) ∧
    (∀ s : String, ∀ c ∈ (escape_xml s).data, c ≠ '<' ∧ c ≠ '>') ∧
    (∀ s : String, '&' ∈ s.data →
        ∃ u v : List Char, (escape_xml s).data = u ++ "&amp;".data ++ v) ∧
    (∀ s : String, '<' ∈ s.data →
        ∃ u v : List Char, (escape_xml s).data = u ++ "&lt;".data ++ v) ∧
    (∀ s : String, '>' ∈ s.data →
        ∃ u v : List Char, (escape_xml s).data = u ++ "&gt;".data ++ v) ∧
    escape_xml "a<b&c>d" = "a&lt;b&amp;c&gt;d" := by
  have hdata : ∀ s : String, (escape_xml s).data = s.data.flatMap escChar := by
    intro s
    show (((s.data.flatMap _).flatMap _).flatMap _) = _
    exact escape_chain s.data
  refine ⟨?_, ?_, ?_, ?_, ?_, by decide⟩
  · intro s
    apply String.ext
    rw [hdata]
  · intro s c hc
    rw [hdata] at hc
    rcases List.mem_flatMap.mp hc with ⟨a, _, hmem⟩
    unfold escChar at hmem
    split_ifs at hmem with h1 h2 h3
    · exact (by decide : ∀ c ∈ "&amp;".data, c ≠ '<' ∧ c ≠ '>') c hmem
    · exact (by decide : ∀ c ∈ "&lt;".data, c ≠ '<' ∧ c ≠ '>') c hmem
    · exact (by decide : ∀ c ∈ "&gt;".data, c ≠ '<' ∧ c ≠ '>') c hmem
    · rcases List.mem_singleton.mp hmem with rfl
      exact ⟨h2, h3⟩
  · intro s h
    rw [hdata]
    simpa using flatMap_block escChar h
  · intro s h
    rw [hdata]
    simpa using flatMap_block escChar h
  · intro s h
    rw [hdata]
    simpa using flatMap_block escChar h

/-- Witness for the escaping theorem at concrete strings. -/
theorem escape_xml_escapes_witness :
    (∃ u v : List Char, (escape_xml "a&b").data = u ++ "&amp;".data ++ v) ∧
    (∃ u v : List Char, (escape_xml "a<b").data = u ++ "&lt;".data ++ v) ∧
    (∃ u v : List Char, (escape_xml "a>b").data = u ++ "&gt;".data ++ v) ∧
    ('a' ≠ '<' ∧ 'a' ≠ '>') :=
  ⟨escape_xml_escapes.2.2.1 "a&b" (by decide),
   escape_xml_escapes.2.2.2.1 "a<b" (by decide),
   escape_xml_escapes.2.2.2.2.1 "a>b" (by decide),
   escape_xml_escapes.2.1 "a&b" 'a' (by decide)⟩

/-- The spacing class of a content row of generate_svg
(generate_svg.py line 66). -/
inductive Spacing where
  | tight : Spacing
  | normal : Spacing
  | blank : Spacing
deriving DecidableEq

/-- One content row of the SVG: text, color class and spacing class
(generate_svg.py lines 66-67). -/
structure SvgRow where
  text : String
  color : String
  spacing : Spacing

/-- Vertical start position (generate_svg.py line 54). -/
def y_start : Nat := 30

/-- Advance for ASCII-art rows (generate_svg.py line 52). -/
def line_height_tight : Nat := 13

/-- Advance for stat rows (generate_svg.py line 53). -/
def line_height_normal : Nat := 20

/-- One iteration of the height loop of generate_svg.py lines 200-206:
tight rows advance by line_height_tight, blank rows by half of
line_height_normal, all others by line_height_normal. -/
def heightStep (h : Nat) (r : SvgRow) : Nat :=
  match r.spacing with
  | .tight => h + line_height_tight
  | .blank => h + line_height_normal / 2
  | .normal => h + line_height_normal

/-- The canvas height of generate_svg.py lines 199-207: the running sum
starting at y_start, plus the bottom margin of 30. -/
def svgCanvasHeight (rows : List SvgRow) : Nat :=
  rows.foldl heightStep y_start + 30

/-- The per-row advance as the specification states it: 13 for tight, 20
for normal, 10 for blank. -/
def rowAdvance (r : SvgRow) : Nat :=
  match r.spacing with
  | .tight => 13
  | .normal => 20
  | .blank => 10

/-- The height fold is the plain sum of the row advances over any
starting offset. -/
theorem heightStep_foldl (rows : List SvgRow) :
    ∀ n : Nat, rows.foldl heightStep n = n + (rows.map rowAdvance).sum := by
  induction rows with
  | nil => intro n; simp
  | cons r rs ih =>
      intro n
      rcases r with ⟨t, c, sp⟩
      cases sp <;>
        simp [List.foldl_cons, heightStep, rowAdvance, ih,
          line_height_tight, line_height_normal] <;>
        omega

/-- C8: for every sequence of content rows, the canvas height equals the
fixed top margin of 30, plus 13 for each tight row, 20 for each normal
row and 10 for each blank row, plus the fixed bottom margin of 30,
recomputed from the row list. -/
theorem svg_canvas_height_formula (rows : List SvgRow) :
    svgCanvasHeight rows = 30 + (rows.map rowAdvance).sum + 30 := by
  unfold svgCanvasHeight y_start
  rw [heightStep_foldl]

/-- The digit groups of a reversed digit string, least significant
first, in blocks of three. -/
def chunk3 : List Char → List (List Char)
  | a :: b :: c :: rest => [a, b, c] :: chunk3 rest
  | [] => []
  | xs => [xs]

/-- Python format {n:,} for a natural number: the decimal digits with a
comma between three-digit groups. -/
def natComma (n : Nat) : String :=
  let gs := ((chunk3 (toString n).data.reverse).map List.reverse).reverse
  String.mk (gs.intersperse [',']).flatten

/-- Python format {n:,} for an integer. -/
def intComma (n : Int) : String :=
  if n < 0 then "-" ++ natComma (-n).toNat else natComma n.toNat

/-- The Lines of Code value string of generate_svg.py line 188: the
loc_total, loc_added and loc_deleted fields read with a lookup
defaulting to 0 (generate_svg.py lines 185-187), comma formatted. -/
def svgLocValue (gh : GithubRecord) : String :=
  intComma (recGet gh "loc_total" 0) ++ " ( +" ++ intComma (recGet gh "loc_added" 0) ++
    ", -" ++ intComma (recGet gh "loc_deleted" 0) ++ " )"

/-- The four GitHub stat rows of generate_svg.py lines 176-181, each
value read with a lookup defaulting to 0. -/
def svgGithubStatPairs (gh : GithubRecord) : List (String × Int) :=
  [("Repositories", recGet gh "repos" 0),
   ("Contributed To", recGet gh "contributed_repos" 0),
   ("Total Commits", recGet gh "commits" 0),
   ("Pull Requests", recGet gh "prs" 0)]

/-- C10: the record produced when the transport is unavailable and no
cache exists is the ten-key zero dict without a loc_total key, and the
SVG renderer still reads 0 for every GitHub field, rendering the Lines
of Code row as 0 ( +0, -0 ), because each field is read with a lookup
defaulting to 0. -/
theorem github_zero_record_rendering :
    (∀ (p : QueryResult) (c : Int) (l : LocStats),
        get_github_stats false none p c l = githubZeroRecord) ∧
    githubZeroRecord.find? (fun kv => kv.1 == "loc_total") = none ∧
    githubZeroRecord.map Prod.fst =
      ["repos", "commits", "stars", "followers", "following", "loc_added",
       "loc_deleted", "contributed_repos", "prs", "issues"] ∧
    githubZeroRecord.all (fun kv => kv.2 == 0) = true ∧
    svgLocValue githubZeroRecord = "0 ( +0, -0 )" ∧
    (svgGithubStatPairs githubZeroRecord).map Prod.snd = [0, 0, 0, 0] := by
  refine ⟨?_, by decide, by decide, by decide, by decide, by decide⟩
  intro p c l
  cases p <;> rfl
